import Mathlib

/-!
Shallow embedding of the MyVision backend's risk-adaptive login engine:
the cognitive-check heuristics (`utils/cognitiveCheck.js`), the OTP helpers
(`utils/emailService.js`) and the `handler.js` endpoints `verifyEmail`,
`login` and `verifyLoginOTP`.

Timestamps are modelled as `Int` milliseconds since the epoch (the JS code
compares `Date` values, which is exactly millisecond comparison).  External
collaborators (bcrypt compare, `Date.getHours`, OTP/uuid generation) are
passed in explicitly through a `Deps` record.  The DynamoDB table is
modelled as a `List User`; a `scan` with an equality filter followed by
`Items[0]` is `List.find?`.
-/

/-- Geographic location as returned by `getIPLocation` in
`utils/cognitiveCheck.js`.  The JS object carries `lat`/`lon` keys only when
some producer puts them there, hence `Option`; `timezone` is likewise absent
in the unknown-location fallback objects. -/
structure Location where
  country : String
  region : String
  city : String
  timezone : Option String
  lat : Option Float
  lon : Option Float

/-- Device fingerprint as returned by `getDeviceFingerprint`. -/
structure Device where
  browser : String
  os : String
  device : String
  deviceModel : String

/-- A record produced by the external `geoip-lite` database: string fields
plus the optional `ll` coordinate pair the library provides. -/
structure GeoRecord where
  country : String
  region : String
  city : String
  timezone : String
  ll : Option (Float × Float)

/-- One entry of `loginHistory`: `{timestamp, ip, location, device}`. -/
structure HistoryEntry where
  timestamp : Int
  ip : String
  location : Location
  device : Device

/-- The `pendingSessionData` snapshot stored when a suspicious login starts a
step-up: `{ip, location, device, timestamp}`. -/
structure SessionData where
  ip : String
  location : Location
  device : Device
  timestamp : Int

/-- The claims of a signed JWT: `{userId, email}` (expiry/signing are the
external signer's business). -/
structure Token where
  userId : String
  email : String
deriving DecidableEq

/-- A user record in the DynamoDB users table, with the fields the login
engine reads and writes.  Absent attributes (or attributes set to `null` by
an update) are `none`; `otpAttempts`/`loginOTPAttempts` default to 0. -/
structure User where
  userId : String
  email : String
  passwordHash : String
  isEmailVerified : Bool
  otp : Option String
  otpExpiry : Option Int
  otpAttempts : Nat
  loginAttempts : List Int
  lastLoginTime : Option Int
  lastLoginIP : Option String
  lastLoginLocation : Option Location
  lastLoginDevice : Option Device
  loginHistory : List HistoryEntry
  loginOTP : Option String
  loginOTPExpiry : Option Int
  loginOTPAttempts : Nat
  pendingSessionId : Option String
  pendingSessionData : Option SessionData

/-! ### small JS-semantics helpers -/

/-- JS string-field truthiness: a string attribute is truthy when present and
nonempty. -/
def optStrTruthy : Option String → Bool
  | none => false
  | some s => s ≠ ""

/-- JS numeric truthiness for an optional number: absent, `0` and `NaN` are
falsy. -/
def floatTruthy : Option Float → Bool
  | none => false
  | some v => !(v == 0.0) && !v.isNaN

/-- `geo.field || 'unknown'`: empty strings fall back to `"unknown"`. -/
def orUnknown (s : String) : String :=
  if s = "" then "unknown" else s

/-- Boolean list-is-a-leading-segment test (JS `String.prototype.startsWith`
over char lists, used to build the substring test below). -/
def listLeads : List Char → List Char → Bool
  | [], _ => true
  | _ :: _, [] => false
  | a :: as, b :: bs => a == b && listLeads as bs

/-- All suffixes of a char list, longest first. -/
def suffixesOf : List Char → List (List Char)
  | [] => [[]]
  | l@(_ :: as) => l :: suffixesOf as

/-- JS `s.includes(sub)` over char lists: `sub` occurs contiguously inside
`s` (the empty string is contained in everything). -/
def includesL (s sub : List Char) : Bool :=
  (suffixesOf s).any (fun t => listLeads sub t)

/-- JS `s.split(' ')[0]` over char lists: the characters before the first
space (the whole string when there is none). -/
def headTokenL : List Char → List Char
  | [] => []
  | c :: cs => if c == ' ' then [] else c :: headTokenL cs

/-- JS `s.toLowerCase()` as a char list (ASCII case mapping). -/
def lowerL (s : String) : List Char :=
  s.toList.map Char.toLower

/-- JS `l.slice(-n)`: the last `n` elements of a list (the whole list when it
is shorter). -/
def sliceLast (n : Nat) (l : List α) : List α :=
  l.drop (l.length - n)

/-! ### utils/emailService.js -/

/-- `generateOTPExpiry`: 5 minutes from now, in milliseconds. -/
def generateOTPExpiry (now : Int) : Int :=
  now + 5 * 60 * 1000

/-- `isOTPExpired`: true when the expiry attribute is absent (`!otpExpiry`)
or strictly in the past (`new Date() > new Date(otpExpiry)`). -/
def isOTPExpired (otpExpiry : Option Int) (now : Int) : Bool :=
  match otpExpiry with
  | none => true
  | some e => decide (e < now)

/-! ### utils/cognitiveCheck.js -/

/-- `getIPLocation`: resolve an IP through the optional `geoip-lite`
database.  The unknown-IP, missing-database and failed-lookup branches all
return the `{country:'unknown', region:'unknown', city:'unknown'}` object;
the success branch copies `country`/`region`/`city`/`timezone` (each
defaulted to `"unknown"` when empty) and nothing else — in particular the
database's `ll` coordinates are not copied, so the result never carries
`lat`/`lon`. -/
def getIPLocation (geoip : Option (String → Option GeoRecord)) (ip : String) :
    Location :=
  if ip = "" || ip = "unknown" then
    ⟨"unknown", "unknown", "unknown", none, none, none⟩
  else
    match geoip with
    | none => ⟨"unknown", "unknown", "unknown", none, none, none⟩
    | some lookup =>
      match lookup ip with
      | none => ⟨"unknown", "unknown", "unknown", none, none, none⟩
      | some geo =>
        ⟨orUnknown geo.country, orUnknown geo.region, orUnknown geo.city,
         some (orUnknown geo.timezone), none, none⟩

/-- `calculateDistance`: haversine great-circle distance in km, Earth radius
6371, mirroring the JS float arithmetic. -/
def calculateDistance (lat1 lon1 lat2 lon2 : Float) : Float :=
  let R : Float := 6371
  let pi : Float := 3.141592653589793
  let dLat := (lat2 - lat1) * pi / 180
  let dLon := (lon2 - lon1) * pi / 180
  let a :=
    Float.sin (dLat / 2) * Float.sin (dLat / 2) +
    Float.cos (lat1 * pi / 180) * Float.cos (lat2 * pi / 180) *
    Float.sin (dLon / 2) * Float.sin (dLon / 2)
  let c := 2 * Float.atan2 (Float.sqrt a) (Float.sqrt (1 - a))
  R * c

/-- `isLocationSuspicious`: skip when there is no prior location or it is
unknown; different country is always suspicious; with coordinates on both
sides (JS truthiness) compare the haversine distance against the threshold;
otherwise fall back to comparing regions. -/
def isLocationSuspicious (currentLocation : Location)
    (lastLocation : Option Location) (threshold : Float := 500) : Bool :=
  match lastLocation with
  | none => false
  | some last =>
    if last.country = "unknown" then false
    else if currentLocation.country ≠ last.country then true
    else if floatTruthy currentLocation.lat && floatTruthy last.lat then
      calculateDistance (currentLocation.lat.getD 0) (currentLocation.lon.getD 0)
        (last.lat.getD 0) (last.lon.getD 0) > threshold
    else
      currentLocation.region ≠ last.region

/-- The JS local `browserChanged` inside `isDeviceSuspicious`: neither
lower-cased browser string contains the other's leading token. -/
def browserChangedCheck (currentDevice lastDevice : Device) : Bool :=
  !(includesL (lowerL currentDevice.browser)
      (headTokenL (lowerL lastDevice.browser))) &&
  !(includesL (lowerL lastDevice.browser)
      (headTokenL (lowerL currentDevice.browser)))

/-- The JS local `osChanged` inside `isDeviceSuspicious`. -/
def osChangedCheck (currentDevice lastDevice : Device) : Bool :=
  !(includesL (lowerL currentDevice.os) (headTokenL (lowerL lastDevice.os))) &&
  !(includesL (lowerL lastDevice.os) (headTokenL (lowerL currentDevice.os)))

/-- `isDeviceSuspicious`: skip with no prior device (or an empty prior
browser string); otherwise suspicious when the browser changed OR the OS
changed under the mutual leading-token substring test. -/
def isDeviceSuspicious (currentDevice : Device) (lastDevice : Option Device) :
    Bool :=
  match lastDevice with
  | none => false
  | some last =>
    if last.browser = "" then false
    else browserChangedCheck currentDevice last || osChangedCheck currentDevice last

/-- `isTimeSuspicious`: with fewer than 3 history entries, not suspicious;
otherwise the circular deviation of the current hour from the mean login
hour must not exceed 6.  The JS float division is modelled with exact
rationals. -/
def isTimeSuspicious (hourOf : Int → Nat) (currentHour : Nat)
    (loginHistory : List HistoryEntry) : Bool :=
  if loginHistory.length < 3 then false
  else
    let loginHours := loginHistory.map (fun login => hourOf login.timestamp)
    let avgHour : ℚ := (loginHours.foldl (· + ·) 0 : Nat) / (loginHours.length : ℚ)
    let deviation := |(currentHour : ℚ) - avgHour|
    let normalizedDeviation := min deviation (24 - deviation)
    decide (normalizedDeviation > 6)

/-- Result of `checkRateLimit`. -/
structure RateLimitResult where
  limited : Bool
  remainingAttempts : Nat
  recentAttempts : Nat
deriving DecidableEq

/-- `checkRateLimit`: count attempts strictly inside the trailing window;
limited when the count reaches `maxAttempts`; remaining attempts floored at
0 (Nat subtraction). -/
def checkRateLimit (attempts : List Int) (now : Int)
    (windowMinutes : Nat := 15) (maxAttempts : Nat := 5) : RateLimitResult :=
  if attempts.isEmpty then ⟨false, maxAttempts, 0⟩
  else
    let windowStart := now - windowMinutes * 60 * 1000
    let recentAttempts := attempts.filter (fun timestamp => windowStart < timestamp)
    ⟨decide (maxAttempts ≤ recentAttempts.length),
     maxAttempts - recentAttempts.length, recentAttempts.length⟩

/-- Result object of `performCognitiveCheck`. -/
structure CognitiveResult where
  locationSuspicious : Bool
  deviceSuspicious : Bool
  timeSuspicious : Bool
  reasons : List String
  suspicious : Bool
  currentIP : String
  currentLocation : Location
  currentDevice : Device

/-- `performCognitiveCheck`: run the three sub-checks against the stored
profile, guarded exactly as in the JS (location needs a truthy
`lastLoginIP` and a present `lastLoginLocation`; device needs a present
`lastLoginDevice`; time needs ≥ 3 history entries), collect fixed reason
strings, and OR the three into `suspicious`.  The extracted signals
(`ip`, `location`, `device`) and the clock readings are parameters. -/
def performCognitiveCheck (hourOf : Int → Nat) (currentHour : Nat)
    (currentIP : String) (currentLocation : Location) (currentDevice : Device)
    (userProfile : User) : CognitiveResult :=
  let locationSuspicious :=
    if optStrTruthy userProfile.lastLoginIP && userProfile.lastLoginLocation.isSome
    then isLocationSuspicious currentLocation userProfile.lastLoginLocation
    else false
  let deviceSuspicious :=
    if userProfile.lastLoginDevice.isSome
    then isDeviceSuspicious currentDevice userProfile.lastLoginDevice
    else false
  let timeSuspicious :=
    if 3 ≤ userProfile.loginHistory.length
    then isTimeSuspicious hourOf currentHour userProfile.loginHistory
    else false
  { locationSuspicious := locationSuspicious
    deviceSuspicious := deviceSuspicious
    timeSuspicious := timeSuspicious
    reasons :=
      (if locationSuspicious then ["Login from new location"] else []) ++
      (if deviceSuspicious then ["Login from new device or browser"] else []) ++
      (if timeSuspicious then ["Login at unusual time"] else [])
    suspicious := locationSuspicious || deviceSuspicious || timeSuspicious
    currentIP := currentIP
    currentLocation := currentLocation
    currentDevice := currentDevice }

/-! ### handler.js -/

/-- `MAX_OTP_ATTEMPTS` in handler.js. -/
def MAX_OTP_ATTEMPTS : Nat := 3

/-- `RATE_LIMIT_WINDOW_MINUTES` in handler.js. -/
def RATE_LIMIT_WINDOW_MINUTES : Nat := 15

/-- `MAX_LOGIN_ATTEMPTS` in handler.js. -/
def MAX_LOGIN_ATTEMPTS : Nat := 5

/-- The external collaborators and clock readings a request handler uses:
the current time, the local-time hour function (`Date.prototype.getHours`),
the freshly generated OTP code and session uuid, and the bcrypt comparison
oracle. -/
structure Deps where
  now : Int
  hourOf : Int → Nat
  freshOTP : String
  freshSessionId : String
  compare : String → String → Bool

/-- Outcomes of the `verifyEmail` handler (confirmSignupOTP). -/
inductive VerifyEmailOutcome where
  | badRequest
  | notFound
  | alreadyVerified
  | maxAttemptsExceeded
  | expired
  | invalidOtp (attemptsRemaining : Nat)
  | verified (token : Token)
deriving DecidableEq

/-- `verifyEmail` (`POST /verify-email`): look the user up by email, reject
when already verified, then run the signup-OTP checks in source order
(attempt cap, expiry, code comparison); on mismatch increment the attempt
counter; on match set `isEmailVerified`, null the OTP fields and sign a
token.  Returns the outcome and the stored record after the request. -/
def verifyEmail (deps : Deps) (email otp : String) (users : List User) :
    VerifyEmailOutcome × Option User :=
  if email = "" || otp = "" then (.badRequest, none)
  else
    match users.find? (fun u => u.email == email) with
    | none => (.notFound, none)
    | some user =>
      if user.isEmailVerified then (.alreadyVerified, some user)
      else if MAX_OTP_ATTEMPTS ≤ user.otpAttempts then
        (.maxAttemptsExceeded, some user)
      else if isOTPExpired user.otpExpiry deps.now then (.expired, some user)
      else if !(user.otp == some otp) then
        (.invalidOtp (MAX_OTP_ATTEMPTS - (user.otpAttempts + 1)),
         some { user with otpAttempts := user.otpAttempts + 1 })
      else
        (.verified ⟨user.userId, user.email⟩,
         some { user with isEmailVerified := true, otp := none,
                          otpExpiry := none, otpAttempts := 0 })

/-- Outcomes of the `login` handler. -/
inductive LoginOutcome where
  | badRequest
  | invalidCredentials
  | rateLimited (retryAfter : Nat)
  | emailUnverified
  | stepUpRequired (sessionId : String) (reasons : List String)
  | authenticated (token : Token)
deriving DecidableEq

/-- `login` (`POST /login`): look the user up by email; evaluate the rate
limiter (returning early, before any write, when limited); append the
current timestamp to `loginAttempts`; compare the password; check email
verification; run `performCognitiveCheck`.  When suspicious, store a fresh
login OTP and pending session snapshotting the current signals; otherwise
append to `loginHistory` (keeping the last 10 via `slice(-10)`), set the
`lastLogin*` fields and sign a token.  The non-suspicious update expression
touches only `lastLoginTime`, `lastLoginIP`, `lastLoginLocation`,
`lastLoginDevice`, `loginHistory` and `updatedAt`.  Returns the outcome and
the stored record after the request. -/
def login (deps : Deps) (ip : String) (loc : Location) (dev : Device)
    (email password : String) (users : List User) :
    LoginOutcome × Option User :=
  if email = "" || password = "" then (.badRequest, none)
  else
    match users.find? (fun u => u.email == email) with
    | none => (.invalidCredentials, none)
    | some user =>
      let rateLimitCheck :=
        checkRateLimit user.loginAttempts deps.now
          RATE_LIMIT_WINDOW_MINUTES MAX_LOGIN_ATTEMPTS
      if rateLimitCheck.limited then
        (.rateLimited (RATE_LIMIT_WINDOW_MINUTES * 60), some user)
      else
        let user1 := { user with loginAttempts := user.loginAttempts ++ [deps.now] }
        if !(deps.compare password user.passwordHash) then
          (.invalidCredentials, some user1)
        else if !user.isEmailVerified then (.emailUnverified, some user1)
        else
          let cognitiveCheck :=
            performCognitiveCheck deps.hourOf (deps.hourOf deps.now) ip loc dev user
          if cognitiveCheck.suspicious then
            let sessionData : SessionData := ⟨ip, loc, dev, deps.now⟩
            (.stepUpRequired deps.freshSessionId cognitiveCheck.reasons,
             some { user1 with loginOTP := some deps.freshOTP,
                               loginOTPExpiry := some (generateOTPExpiry deps.now),
                               loginOTPAttempts := 0,
                               pendingSessionId := some deps.freshSessionId,
                               pendingSessionData := some sessionData })
          else
            let entry : HistoryEntry := ⟨deps.now, ip, loc, dev⟩
            let recentHistory := sliceLast 10 (user1.loginHistory ++ [entry])
            (.authenticated ⟨user.userId, user.email⟩,
             some { user1 with lastLoginTime := some deps.now,
                               lastLoginIP := some ip,
                               lastLoginLocation := some loc,
                               lastLoginDevice := some dev,
                               loginHistory := recentHistory })

/-- Outcomes of the `verifyLoginOTP` handler (confirmLoginOTP). -/
inductive OtpOutcome where
  | badRequest
  | invalidSession
  | maxAttemptsExceeded
  | expired
  | invalidOtp (attemptsRemaining : Nat)
  | serverError
  | verified (token : Token)
deriving DecidableEq

/-- `verifyLoginOTP` (`POST /verify-login-otp`): find the user whose
`pendingSessionId` matches; run the step-up OTP checks in source order
(attempt cap, expiry, code comparison, incrementing the counter on
mismatch); on success parse `pendingSessionData` (a missing snapshot throws
in JS, modelled as `serverError`), commit the snapshotted ip/location/device
into `lastLogin*` and a new `loginHistory` entry (keeping the last 10), null
every step-up field, and sign a token. -/
def verifyLoginOTP (deps : Deps) (sessionId otp : String) (users : List User) :
    OtpOutcome × Option User :=
  if sessionId = "" || otp = "" then (.badRequest, none)
  else
    match users.find? (fun u => u.pendingSessionId == some sessionId) with
    | none => (.invalidSession, none)
    | some user =>
      if MAX_OTP_ATTEMPTS ≤ user.loginOTPAttempts then
        (.maxAttemptsExceeded, some user)
      else if isOTPExpired user.loginOTPExpiry deps.now then
        (.expired, some user)
      else if !(user.loginOTP == some otp) then
        (.invalidOtp (MAX_OTP_ATTEMPTS - (user.loginOTPAttempts + 1)),
         some { user with loginOTPAttempts := user.loginOTPAttempts + 1 })
      else
        match user.pendingSessionData with
        | none => (.serverError, some user)
        | some sessionData =>
          let entry : HistoryEntry :=
            ⟨deps.now, sessionData.ip, sessionData.location, sessionData.device⟩
          let recentHistory := sliceLast 10 (user.loginHistory ++ [entry])
          (.verified ⟨user.userId, user.email⟩,
           some { user with lastLoginTime := some deps.now,
                            lastLoginIP := some sessionData.ip,
                            lastLoginLocation := some sessionData.location,
                            lastLoginDevice := some sessionData.device,
                            loginHistory := recentHistory,
                            loginOTP := none, loginOTPExpiry := none,
                            loginOTPAttempts := 0,
                            pendingSessionId := none, pendingSessionData := none })

/-! ### helper lemmas -/

theorem sliceLast_length_le (n : Nat) (l : List α) : (sliceLast n l).length ≤ n := by
  simp only [sliceLast, List.length_drop]
  omega

theorem sliceLast_suffix (n : Nat) (l : List α) : sliceLast n l <:+ l :=
  List.drop_suffix _ _

theorem sliceLast_of_length_le (n : Nat) (l : List α) (h : l.length ≤ n) :
    sliceLast n l = l := by
  simp only [sliceLast]
  rw [Nat.sub_eq_zero_of_le h, List.drop_zero]

theorem sliceLast_concat_of_length_eq (l : List α) (e : α) (h : l.length = 10) :
    sliceLast 10 (l ++ [e]) = l.drop 1 ++ [e] := by
  simp only [sliceLast, List.length_append, List.length_singleton, h]
  rw [List.drop_append_of_le_length (by omega)]

/-- Inversion for `login`: an `authenticated` outcome can only come from the
final branch, which pins down the written record and the token. -/
theorem login_authenticated_inv {deps : Deps} {ip : String} {loc : Location}
    {dev : Device} {email password : String} {users : List User} {u u' : User}
    {tk : Token}
    (hfind : users.find? (fun v => v.email == email) = some u)
    (hlog : login deps ip loc dev email password users =
      (.authenticated tk, some u')) :
    tk = ⟨u.userId, u.email⟩ ∧
    u' = { u with
            loginAttempts := u.loginAttempts ++ [deps.now],
            lastLoginTime := some deps.now,
            lastLoginIP := some ip,
            lastLoginLocation := some loc,
            lastLoginDevice := some dev,
            loginHistory :=
              sliceLast 10 (u.loginHistory ++ [⟨deps.now, ip, loc, dev⟩]) } := by
  unfold login at hlog
  split at hlog
  · exact absurd (congrArg Prod.fst hlog) (by simp)
  · rw [hfind] at hlog
    simp only at hlog
    split at hlog
    · exact absurd (congrArg Prod.fst hlog) (by simp)
    · split at hlog
      · exact absurd (congrArg Prod.fst hlog) (by simp)
      · split at hlog
        · exact absurd (congrArg Prod.fst hlog) (by simp)
        · split at hlog
          · exact absurd (congrArg Prod.fst hlog) (by simp)
          · obtain ⟨h1, h2⟩ := Prod.mk.injEq .. ▸ hlog
            exact ⟨(LoginOutcome.authenticated.injEq .. ▸ h1).symm,
                   (Option.some.injEq .. ▸ h2).symm⟩

/-- Inversion for `verifyLoginOTP`: a `verified` outcome can only come from
the success branch, which pins down the written record and the token. -/
theorem verifyLoginOTP_verified_inv {deps : Deps} {sessionId otp : String}
    {users : List User} {u u' : User} {tk : Token} {sd : SessionData}
    (hfind : users.find? (fun v => v.pendingSessionId == some sessionId) = some u)
    (hsd : u.pendingSessionData = some sd)
    (hver : verifyLoginOTP deps sessionId otp users = (.verified tk, some u')) :
    tk = ⟨u.userId, u.email⟩ ∧
    u' = { u with
            lastLoginTime := some deps.now,
            lastLoginIP := some sd.ip,
            lastLoginLocation := some sd.location,
            lastLoginDevice := some sd.device,
            loginHistory :=
              sliceLast 10 (u.loginHistory ++
                [⟨deps.now, sd.ip, sd.location, sd.device⟩]),
            loginOTP := none, loginOTPExpiry := none, loginOTPAttempts := 0,
            pendingSessionId := none, pendingSessionData := none } := by
  unfold verifyLoginOTP at hver
  split at hver
  · exact absurd (congrArg Prod.fst hver) (by simp)
  · rw [hfind] at hver
    simp only at hver
    split at hver
    · exact absurd (congrArg Prod.fst hver) (by simp)
    · split at hver
      · exact absurd (congrArg Prod.fst hver) (by simp)
      · split at hver
        · exact absurd (congrArg Prod.fst hver) (by simp)
        · rw [hsd] at hver
          simp only at hver
          obtain ⟨h1, h2⟩ := Prod.mk.injEq .. ▸ hver
          exact ⟨(OtpOutcome.verified.injEq .. ▸ h1).symm,
                 (Option.some.injEq .. ▸ h2).symm⟩

/-! ### concrete records used by witnesses and counterexamples -/

/-- A location with no coordinates, as `getIPLocation` produces. -/
def locX : Location := ⟨"US", "CA", "San Francisco", none, none, none⟩

/-- A second region in the same country. -/
def locY : Location := ⟨"US", "NV", "Las Vegas", none, none, none⟩

/-- A Chrome-on-Windows fingerprint. -/
def devX : Device := ⟨"Chrome 99.0", "Windows 10", "desktop", "unknown"⟩

/-- A Firefox-on-Windows fingerprint: the browser differs from `devX` under
the mutual leading-token test, the OS does not. -/
def devFirefox : Device := ⟨"Firefox 100.0", "Windows 10", "desktop", "unknown"⟩

/-- Concrete collaborators: a fixed clock, a `getHours` that always reads 9,
fresh OTP/session values, and a bcrypt oracle accepting exactly the password
whose stored digest is `"hash:" ++ password`. -/
def depsX : Deps :=
  ⟨1750000000000, fun _ => 9, "246810", "sess-fresh",
   fun password digest => digest == "hash:" ++ password⟩

/-- A verified user with no history, storing the digest of `"secret99"`. -/
def activeUser : User :=
  { userId := "u1", email := "user@example.com",
    passwordHash := "hash:secret99", isEmailVerified := true,
    otp := none, otpExpiry := none, otpAttempts := 0,
    loginAttempts := [], lastLoginTime := none, lastLoginIP := none,
    lastLoginLocation := none, lastLoginDevice := none, loginHistory := [],
    loginOTP := none, loginOTPExpiry := none, loginOTPAttempts := 0,
    pendingSessionId := none, pendingSessionData := none }

/-! ### Claim C1 -/

/-- Claim C1 (counterexample): with a prior Chrome-on-Windows device on
file, a login whose browser alone changed to Firefox — the OS passes the
mutual leading-token test — already makes the device sub-check suspicious,
both at the `isDeviceSuspicious` level and in `performCognitiveCheck`'s
`deviceSuspicious` flag.  This refutes the claim that the sub-check fires
only when both browser and OS differ. -/
theorem c1_counterexample :
    browserChangedCheck devFirefox devX = true ∧
    osChangedCheck devFirefox devX = false ∧
    isDeviceSuspicious devFirefox (some devX) = true ∧
    (performCognitiveCheck (fun _ => 9) 9 "9.9.9.9" locX devFirefox
      { activeUser with lastLoginDevice := some devX }).deviceSuspicious = true :=
  ⟨by decide, by decide, by decide, by decide⟩

/-- Claim C1 (amended): with a prior device on file (nonempty prior browser
string), the device sub-check is suspicious exactly when the browser OR the
OS fails the mutual leading-token substring comparison — either change
alone flips this sub-check. -/
theorem c1_device_check_either_flips
    (currentDevice lastDevice : Device) (h : lastDevice.browser ≠ "") :
    isDeviceSuspicious currentDevice (some lastDevice) =
      (browserChangedCheck currentDevice lastDevice ||
       osChangedCheck currentDevice lastDevice) := by
  unfold isDeviceSuspicious
  simp only [if_neg h]

/-- Witness for C1's amended theorem at the concrete Firefox-vs-Chrome pair. -/
theorem c1_device_check_either_flips_witness :
    isDeviceSuspicious devFirefox (some devX) =
      (browserChangedCheck devFirefox devX || osChangedCheck devFirefox devX) :=
  c1_device_check_either_flips devFirefox devX (by decide)

/-! ### Claim C3 -/

/-- Claim C3: when a stored user's `loginAttempts` contain at least
`MAX_LOGIN_ATTEMPTS` (5) timestamps inside the trailing 15-minute window,
`login` returns the rate-limited outcome carrying a retry-after hint equal
to the window length in seconds, leaves the record untouched, and never
reaches the password comparison — the result is the same for every
password and every comparison oracle. -/
theorem c3_rate_limited_regardless_of_password
    (deps : Deps) (ip : String) (loc : Location) (dev : Device)
    (email password : String) (users : List User) (u : User)
    (hemail : email ≠ "") (hpw : password ≠ "")
    (hfind : users.find? (fun v => v.email == email) = some u)
    (hcnt : MAX_LOGIN_ATTEMPTS ≤
      (u.loginAttempts.filter
        (fun t =>
          deps.now - (RATE_LIMIT_WINDOW_MINUTES : Int) * 60 * 1000 < t)).length) :
    login deps ip loc dev email password users =
      (.rateLimited (RATE_LIMIT_WINDOW_MINUTES * 60), some u) := by
  have hne : u.loginAttempts.isEmpty = false := by
    rcases h : u.loginAttempts with _ | ⟨a, as⟩
    · rw [h] at hcnt
      simp [MAX_LOGIN_ATTEMPTS] at hcnt
    · rfl
  have hlim : (checkRateLimit u.loginAttempts deps.now
      RATE_LIMIT_WINDOW_MINUTES MAX_LOGIN_ATTEMPTS).limited = true := by
    unfold checkRateLimit
    rw [hne]
    simp only [Bool.false_eq_true, if_false]
    exact decide_eq_true hcnt
  unfold login
  rw [if_neg (by simp [hemail, hpw]), hfind]
  simp only [hlim, if_true]

/-- A user who made 5 attempts in the seconds before `depsX.now`. -/
def limitedUser : User :=
  { activeUser with
    loginAttempts :=
      [1749999995000, 1749999996000, 1749999997000, 1749999998000, 1749999999000] }

/-- Witness for C3: the rate-limited user is turned away with a 900-second
retry hint even though the submitted password is the correct one. -/
theorem c3_rate_limited_regardless_of_password_witness :
    depsX.compare "secret99" limitedUser.passwordHash = true ∧
    login depsX "9.9.9.9" locX devX "user@example.com" "secret99" [limitedUser] =
      (.rateLimited (RATE_LIMIT_WINDOW_MINUTES * 60), some limitedUser) :=
  ⟨by decide,
   c3_rate_limited_regardless_of_password depsX "9.9.9.9" locX devX
     "user@example.com" "secret99" [limitedUser] limitedUser
     (by decide) (by decide) rfl (by decide)⟩

/-! ### Claim C10 -/

/-- Claim C10: `verifyEmail` on a user whose email is already verified
returns the already-verified error for any submitted code, leaves the
record exactly as stored, and issues no token (the outcome constructor
carries none). -/
theorem c10_already_verified_no_write
    (deps : Deps) (email otp : String) (users : List User) (u : User)
    (hemail : email ≠ "") (hotp : otp ≠ "")
    (hfind : users.find? (fun v => v.email == email) = some u)
    (hver : u.isEmailVerified = true) :
    verifyEmail deps email otp users = (.alreadyVerified, some u) := by
  unfold verifyEmail
  rw [if_neg (by simp [hemail, hotp]), hfind]
  simp only [hver, if_true]

/-- A verified user that still carries a stale signup OTP attribute. -/
def verifiedUser : User :=
  { activeUser with otp := some "123456", otpExpiry := some 1750000100000 }

/-- Witness for C10 at a concrete verified user, submitting the very code on
file. -/
theorem c10_already_verified_no_write_witness :
    verifyEmail depsX "user@example.com" "123456" [verifiedUser] =
      (.alreadyVerified, some verifiedUser) :=
  c10_already_verified_no_write depsX "user@example.com" "123456" [verifiedUser]
    verifiedUser (by decide) (by decide) rfl (by decide)

/-! ### Claim C2 -/

/-- A verified user with a stale pending step-up left over from an earlier
suspicious login. -/
def staleStepUpUser : User :=
  { activeUser with
    loginOTP := some "111111",
    loginOTPExpiry := some 1750000300000,
    loginOTPAttempts := 1,
    pendingSessionId := some "stale-sess",
    pendingSessionData := some ⟨"8.8.8.8", locX, devX, 1749999000000⟩ }

/-- Claim C2 (counterexample): a non-suspicious login that authenticates
leaves the stale step-up state in place — the written record still carries
the old `pendingSessionId` and step-up OTP, so the old session id is still
the one a `pendingSessionId = :sessionId` scan would match. -/
theorem c2_counterexample :
    (login depsX "9.9.9.9" locX devX "user@example.com" "secret99"
        [staleStepUpUser]).1 = .authenticated ⟨"u1", "user@example.com"⟩ ∧
    (login depsX "9.9.9.9" locX devX "user@example.com" "secret99"
        [staleStepUpUser]).2.map User.pendingSessionId =
      some (some "stale-sess") ∧
    (login depsX "9.9.9.9" locX devX "user@example.com" "secret99"
        [staleStepUpUser]).2.map User.loginOTP = some (some "111111") ∧
    (login depsX "9.9.9.9" locX devX "user@example.com" "secret99"
        [staleStepUpUser]).2.map User.loginOTPAttempts = some 1 :=
  ⟨rfl, rfl, rfl, rfl⟩

/-- Claim C2 (amended): the authenticated-login write touches only the
`lastLogin*` fields, `loginHistory` and the attempt list; it does **not**
clear a pending step-up — `pendingSessionId`, `pendingSessionData`,
`loginOTP`, `loginOTPExpiry` and `loginOTPAttempts` all survive unchanged,
so a previously issued step-up session id remains resolvable until a
successful `verifyLoginOTP` or a new suspicious login overwrites it. -/
theorem c2_authenticated_login_keeps_stepup
    (deps : Deps) (ip : String) (loc : Location) (dev : Device)
    (email password : String) (users : List User) (u u' : User) (tk : Token)
    (hfind : users.find? (fun v => v.email == email) = some u)
    (hlog : login deps ip loc dev email password users =
      (.authenticated tk, some u')) :
    u'.pendingSessionId = u.pendingSessionId ∧
    u'.pendingSessionData = u.pendingSessionData ∧
    u'.loginOTP = u.loginOTP ∧
    u'.loginOTPExpiry = u.loginOTPExpiry ∧
    u'.loginOTPAttempts = u.loginOTPAttempts := by
  obtain ⟨-, hu⟩ := login_authenticated_inv hfind hlog
  subst hu
  exact ⟨rfl, rfl, rfl, rfl, rfl⟩

/-- The record the non-suspicious login write leaves behind for
`staleStepUpUser`. -/
def staleStepUpUserAfter : User :=
  { staleStepUpUser with
    loginAttempts := staleStepUpUser.loginAttempts ++ [depsX.now],
    lastLoginTime := some depsX.now,
    lastLoginIP := some "9.9.9.9",
    lastLoginLocation := some locX,
    lastLoginDevice := some devX,
    loginHistory :=
      sliceLast 10 (staleStepUpUser.loginHistory ++
        [⟨depsX.now, "9.9.9.9", locX, devX⟩]) }

/-- Witness for C2's amended theorem at the stale-step-up user. -/
theorem c2_authenticated_login_keeps_stepup_witness :
    staleStepUpUserAfter.pendingSessionId = staleStepUpUser.pendingSessionId ∧
    staleStepUpUserAfter.pendingSessionData = staleStepUpUser.pendingSessionData ∧
    staleStepUpUserAfter.loginOTP = staleStepUpUser.loginOTP ∧
    staleStepUpUserAfter.loginOTPExpiry = staleStepUpUser.loginOTPExpiry ∧
    staleStepUpUserAfter.loginOTPAttempts = staleStepUpUser.loginOTPAttempts :=
  c2_authenticated_login_keeps_stepup depsX "9.9.9.9" locX devX
    "user@example.com" "secret99" [staleStepUpUser] staleStepUpUser
    staleStepUpUserAfter ⟨"u1", "user@example.com"⟩ rfl rfl

/-! ### Claim C8 -/

/-- Claim C8 (counterexample): a login attempt by an existing user that hits
the rate limit returns before the attempt-recording update — the stored
record comes back exactly as it was and the current timestamp was never
appended to `loginAttempts`, even though the password was correct. -/
theorem c8_counterexample :
    login depsX "9.9.9.9" locX devX "user@example.com" "secret99"
        [limitedUser] = (.rateLimited 900, some limitedUser) ∧
    depsX.now ∉ limitedUser.loginAttempts :=
  ⟨rfl, by decide⟩

/-- Claim C8 (amended): for every login attempt against an existing user
that passes the rate-limit check, the current timestamp is appended to
`loginAttempts` regardless of the attempt's outcome — in particular also
when the password comparison fails or the email is unverified, so the
append does not depend on the password check succeeding. -/
theorem c8_attempt_appended_when_not_limited
    (deps : Deps) (ip : String) (loc : Location) (dev : Device)
    (email password : String) (users : List User) (u u' : User)
    (hemail : email ≠ "") (hpw : password ≠ "")
    (hfind : users.find? (fun v => v.email == email) = some u)
    (hnl : (checkRateLimit u.loginAttempts deps.now
      RATE_LIMIT_WINDOW_MINUTES MAX_LOGIN_ATTEMPTS).limited = false)
    (hres : (login deps ip loc dev email password users).2 = some u') :
    u'.loginAttempts = u.loginAttempts ++ [deps.now] := by
  unfold login at hres
  rw [if_neg (by simp [hemail, hpw]), hfind] at hres
  simp only [hnl, Bool.false_eq_true, if_false] at hres
  split at hres
  · cases Option.some.injEq .. ▸ hres
    rfl
  · split at hres
    · cases Option.some.injEq .. ▸ hres
      rfl
    · split at hres
      · cases Option.some.injEq .. ▸ hres
        rfl
      · cases Option.some.injEq .. ▸ hres
        rfl

/-- Witness for C8's amended theorem: a wrong-password attempt still gets
its timestamp recorded. -/
theorem c8_attempt_appended_when_not_limited_witness :
    ({ activeUser with loginAttempts := activeUser.loginAttempts ++ [depsX.now] }
        : User).loginAttempts = activeUser.loginAttempts ++ [depsX.now] :=
  c8_attempt_appended_when_not_limited depsX "9.9.9.9" locX devX
    "user@example.com" "totally-wrong" [activeUser] activeUser
    { activeUser with loginAttempts := activeUser.loginAttempts ++ [depsX.now] }
    (by decide) (by decide) rfl rfl rfl

/-! ### Claim C4 -/

/-- Claim C4: for both OTP verifications — signup (`verifyEmail`) and login
step-up (`verifyLoginOTP`) — a stored attempt counter at the maximum (3)
makes the operation return the max-attempts-exceeded outcome with the
record unchanged, for every submitted code (so also when it equals the
stored one, and the code comparison is never reached); and neither
operation ever pushes a counter past the maximum: the written counter stays
below `max (stored counter) 3`. -/
theorem c4_otp_max_attempts :
    (∀ (deps : Deps) (email otp : String) (users : List User) (u : User),
      email ≠ "" → otp ≠ "" →
      users.find? (fun v => v.email == email) = some u →
      u.isEmailVerified = false →
      MAX_OTP_ATTEMPTS ≤ u.otpAttempts →
      verifyEmail deps email otp users = (.maxAttemptsExceeded, some u)) ∧
    (∀ (deps : Deps) (sessionId otp : String) (users : List User) (u : User),
      sessionId ≠ "" → otp ≠ "" →
      users.find? (fun v => v.pendingSessionId == some sessionId) = some u →
      MAX_OTP_ATTEMPTS ≤ u.loginOTPAttempts →
      verifyLoginOTP deps sessionId otp users = (.maxAttemptsExceeded, some u)) ∧
    (∀ (deps : Deps) (email otp : String) (users : List User) (u u' : User),
      users.find? (fun v => v.email == email) = some u →
      (verifyEmail deps email otp users).2 = some u' →
      u'.otpAttempts ≤ max u.otpAttempts MAX_OTP_ATTEMPTS) ∧
    (∀ (deps : Deps) (sessionId otp : String) (users : List User) (u u' : User),
      users.find? (fun v => v.pendingSessionId == some sessionId) = some u →
      (verifyLoginOTP deps sessionId otp users).2 = some u' →
      u'.loginOTPAttempts ≤ max u.loginOTPAttempts MAX_OTP_ATTEMPTS) := by
  refine ⟨?_, ?_, ?_, ?_⟩
  · intro deps email otp users u hemail hotp hfind hunv hmax
    unfold verifyEmail
    rw [if_neg (by simp [hemail, hotp]), hfind]
    simp only [hunv, Bool.false_eq_true, if_false]
    rw [if_pos hmax]
  · intro deps sessionId otp users u hsid hotp hfind hmax
    unfold verifyLoginOTP
    rw [if_neg (by simp [hsid, hotp]), hfind]
    simp only
    rw [if_pos hmax]
  · intro deps email otp users u u' hfind hres
    unfold verifyEmail at hres
    split at hres
    · simp at hres
    · rw [hfind] at hres
      simp only at hres
      split at hres
      · cases Option.some.injEq .. ▸ hres
        exact le_max_left _ _
      · split at hres
        · cases Option.some.injEq .. ▸ hres
          exact le_max_left _ _
        · split at hres
          · cases Option.some.injEq .. ▸ hres
            exact le_max_left _ _
          · split at hres
            · cases Option.some.injEq .. ▸ hres
              rename_i hnotmax _ _
              simp only [MAX_OTP_ATTEMPTS] at hnotmax ⊢
              omega
            · cases Option.some.injEq .. ▸ hres
              simp [MAX_OTP_ATTEMPTS]
  · intro deps sessionId otp users u u' hfind hres
    unfold verifyLoginOTP at hres
    split at hres
    · simp at hres
    · rw [hfind] at hres
      simp only at hres
      split at hres
      · cases Option.some.injEq .. ▸ hres
        exact le_max_left _ _
      · split at hres
        · cases Option.some.injEq .. ▸ hres
          exact le_max_left _ _
        · split at hres
          · cases Option.some.injEq .. ▸ hres
            rename_i hnotmax _ _
            simp only [MAX_OTP_ATTEMPTS] at hnotmax ⊢
            omega
          · split at hres
            · cases Option.some.injEq .. ▸ hres
              exact le_max_left _ _
            · cases Option.some.injEq .. ▸ hres
              simp [MAX_OTP_ATTEMPTS]

/-- An unverified user whose signup OTP counter is exhausted but whose code
is still on file and unexpired. -/
def maxedSignupUser : User :=
  { activeUser with
    isEmailVerified := false,
    otp := some "123456", otpExpiry := some 1750000200000, otpAttempts := 3 }

/-- Witness for C4: submitting the exactly-matching stored code against the
exhausted counter still yields the max-attempts outcome with no write, and
the written counter bound holds there. -/
theorem c4_otp_max_attempts_witness :
    verifyEmail depsX "user@example.com" "123456" [maxedSignupUser] =
      (.maxAttemptsExceeded, some maxedSignupUser) ∧
    maxedSignupUser.otpAttempts ≤ max maxedSignupUser.otpAttempts MAX_OTP_ATTEMPTS :=
  ⟨c4_otp_max_attempts.1 depsX "user@example.com" "123456" [maxedSignupUser]
     maxedSignupUser (by decide) (by decide) rfl (by decide) (by decide),
   c4_otp_max_attempts.2.2.1 depsX "user@example.com" "123456" [maxedSignupUser]
     maxedSignupUser maxedSignupUser rfl
     (by
       have h := c4_otp_max_attempts.1 depsX "user@example.com" "123456"
         [maxedSignupUser] maxedSignupUser (by decide) (by decide) rfl
         (by decide) (by decide)
       rw [h])⟩

/-! ### Claim C5 -/

/-- A user with a pending step-up whose OTP has both expired and exhausted
its attempt counter; the stored code is `"123456"`. -/
def expiredMaxedStepUpUser : User :=
  { activeUser with
    loginOTP := some "123456",
    loginOTPExpiry := some 1749999000000,
    loginOTPAttempts := 3,
    pendingSessionId := some "sess-c5",
    pendingSessionData := some ⟨"8.8.8.8", locX, devX, 1749998000000⟩ }

/-- Claim C5 (counterexample): with the stored expiry strictly in the past
but the attempt counter already at the maximum, `verifyLoginOTP` returns
the max-attempts outcome, not the expired outcome, even for the matching
code — the expiry check is not reached because the attempts check runs
first. -/
theorem c5_counterexample :
    isOTPExpired expiredMaxedStepUpUser.loginOTPExpiry depsX.now = true ∧
    expiredMaxedStepUpUser.loginOTP = some "123456" ∧
    verifyLoginOTP depsX "sess-c5" "123456" [expiredMaxedStepUpUser] =
      (.maxAttemptsExceeded, some expiredMaxedStepUpUser) ∧
    (.maxAttemptsExceeded : OtpOutcome) ≠ .expired :=
  ⟨by decide, rfl, rfl, by decide⟩

/-- Claim C5 (amended): for both OTP verifications, when the attempt counter
has not yet reached the maximum (the max-attempts check runs first), an
absent or past expiry makes the operation return the expired outcome — an
outcome distinct from the mismatch outcome — regardless of whether the
submitted code equals the stored one, with the record unchanged. -/
theorem c5_expired_otp_rejected
    : (∀ (deps : Deps) (email otp : String) (users : List User) (u : User),
        email ≠ "" → otp ≠ "" →
        users.find? (fun v => v.email == email) = some u →
        u.isEmailVerified = false →
        u.otpAttempts < MAX_OTP_ATTEMPTS →
        isOTPExpired u.otpExpiry deps.now = true →
        verifyEmail deps email otp users = (.expired, some u)) ∧
      (∀ (deps : Deps) (sessionId otp : String) (users : List User) (u : User),
        sessionId ≠ "" → otp ≠ "" →
        users.find? (fun v => v.pendingSessionId == some sessionId) = some u →
        u.loginOTPAttempts < MAX_OTP_ATTEMPTS →
        isOTPExpired u.loginOTPExpiry deps.now = true →
        verifyLoginOTP deps sessionId otp users = (.expired, some u)) ∧
      (∀ n, (VerifyEmailOutcome.expired ≠ VerifyEmailOutcome.invalidOtp n)) ∧
      (∀ n, (OtpOutcome.expired ≠ OtpOutcome.invalidOtp n)) := by
  refine ⟨?_, ?_, fun n => by simp, fun n => by simp⟩
  · intro deps email otp users u hemail hotp hfind hunv hlt hexp
    unfold verifyEmail
    rw [if_neg (by simp [hemail, hotp]), hfind]
    simp only [hunv, Bool.false_eq_true, if_false]
    rw [if_neg (by omega)]
    simp only [hexp, if_true]
  · intro deps sessionId otp users u hsid hotp hfind hlt hexp
    unfold verifyLoginOTP
    rw [if_neg (by simp [hsid, hotp]), hfind]
    simp only
    rw [if_neg (by omega)]
    simp only [hexp, if_true]

/-- A user with one failed step-up attempt and an expired login OTP. -/
def expiredStepUpUser : User :=
  { activeUser with
    loginOTP := some "123456",
    loginOTPExpiry := some 1749999000000,
    loginOTPAttempts := 1,
    pendingSessionId := some "sess-c5b",
    pendingSessionData := some ⟨"8.8.8.8", locX, devX, 1749998000000⟩ }

/-- Witness for C5's amended theorem: below the attempt cap, the expired
step-up OTP is rejected as expired even though the submitted code matches
the stored one. -/
theorem c5_expired_otp_rejected_witness :
    verifyLoginOTP depsX "sess-c5b" "123456" [expiredStepUpUser] =
      (.expired, some expiredStepUpUser) :=
  c5_expired_otp_rejected.2.1 depsX "sess-c5b" "123456" [expiredStepUpUser]
    expiredStepUpUser (by decide) (by decide) rfl (by decide) (by decide)

/-! ### Claim C6 -/

/-- Claim C6: confirming a pending step-up with the matching session id and
a correct, unexpired code below the attempt cap commits exactly the
ip/location/device snapshotted in `pendingSessionData` — `verifyLoginOTP`
reads no request signals at all — into `lastLogin*` and into the newly
appended `loginHistory` entry, nulls every step-up field, and returns a
signed token for the user. -/
theorem c6_stepup_commits_snapshot
    (deps : Deps) (sessionId otp : String) (users : List User) (u : User)
    (sd : SessionData)
    (hsid : sessionId ≠ "") (hotp : otp ≠ "")
    (hfind : users.find? (fun v => v.pendingSessionId == some sessionId) = some u)
    (hatt : u.loginOTPAttempts < MAX_OTP_ATTEMPTS)
    (hexp : isOTPExpired u.loginOTPExpiry deps.now = false)
    (hcode : u.loginOTP = some otp)
    (hsd : u.pendingSessionData = some sd) :
    verifyLoginOTP deps sessionId otp users =
      (.verified ⟨u.userId, u.email⟩,
       some { u with
              lastLoginTime := some deps.now,
              lastLoginIP := some sd.ip,
              lastLoginLocation := some sd.location,
              lastLoginDevice := some sd.device,
              loginHistory :=
                sliceLast 10 (u.loginHistory ++
                  [⟨deps.now, sd.ip, sd.location, sd.device⟩]),
              loginOTP := none, loginOTPExpiry := none, loginOTPAttempts := 0,
              pendingSessionId := none, pendingSessionData := none }) := by
  unfold verifyLoginOTP
  rw [if_neg (by simp [hsid, hotp]), hfind]
  simp only
  rw [if_neg (by omega)]
  simp only [hexp, Bool.false_eq_true, if_false, hcode, beq_self_eq_true,
    Bool.not_true, if_false, hsd]

/-- The snapshot taken when the suspicious login for `sess-77` was flagged:
note the ip/location/device differ from anything the confirming request
could carry. -/
def snapC6 : SessionData := ⟨"8.8.4.4", locY, devFirefox, 1749999910000⟩

/-- A user mid step-up for session `sess-77` with one failed attempt. -/
def pendingStepUpUser : User :=
  { activeUser with
    loginOTP := some "314159",
    loginOTPExpiry := some 1750000200000,
    loginOTPAttempts := 1,
    pendingSessionId := some "sess-77",
    pendingSessionData := some snapC6 }

/-- Witness for C6 at the concrete pending step-up. -/
theorem c6_stepup_commits_snapshot_witness :
    verifyLoginOTP depsX "sess-77" "314159" [pendingStepUpUser] =
      (.verified ⟨"u1", "user@example.com"⟩,
       some { pendingStepUpUser with
              lastLoginTime := some depsX.now,
              lastLoginIP := some snapC6.ip,
              lastLoginLocation := some snapC6.location,
              lastLoginDevice := some snapC6.device,
              loginHistory :=
                sliceLast 10 (pendingStepUpUser.loginHistory ++
                  [⟨depsX.now, snapC6.ip, snapC6.location, snapC6.device⟩]),
              loginOTP := none, loginOTPExpiry := none, loginOTPAttempts := 0,
              pendingSessionId := none, pendingSessionData := none }) :=
  c6_stepup_commits_snapshot depsX "sess-77" "314159" [pendingStepUpUser]
    pendingStepUpUser snapC6 (by decide) (by decide) rfl (by decide) rfl rfl rfl

/-! ### Claim C7 -/

/-- Claim C7: after the write of a successful `login` and after the write of
a successful `verifyLoginOTP`, `loginHistory` holds at most 10 entries, is a
suffix of the stored history with the new entry appended (so the FIFO
oldest-to-newest order is preserved), grows by plain append while under 10
entries, and evicts exactly the oldest entry when the stored history already
held 10. -/
theorem c7_history_bounded_fifo :
    (∀ (deps : Deps) (ip : String) (loc : Location) (dev : Device)
        (email password : String) (users : List User) (u u' : User) (tk : Token),
      users.find? (fun v => v.email == email) = some u →
      u.loginHistory.length ≤ 10 →
      login deps ip loc dev email password users = (.authenticated tk, some u') →
      u'.loginHistory.length ≤ 10 ∧
      u'.loginHistory <:+ u.loginHistory ++ [⟨deps.now, ip, loc, dev⟩] ∧
      (u.loginHistory.length < 10 →
        u'.loginHistory = u.loginHistory ++ [⟨deps.now, ip, loc, dev⟩]) ∧
      (u.loginHistory.length = 10 →
        u'.loginHistory =
          u.loginHistory.drop 1 ++ [⟨deps.now, ip, loc, dev⟩])) ∧
    (∀ (deps : Deps) (sessionId otp : String) (users : List User) (u u' : User)
        (tk : Token) (sd : SessionData),
      users.find? (fun v => v.pendingSessionId == some sessionId) = some u →
      u.pendingSessionData = some sd →
      u.loginHistory.length ≤ 10 →
      verifyLoginOTP deps sessionId otp users = (.verified tk, some u') →
      u'.loginHistory.length ≤ 10 ∧
      u'.loginHistory <:+
        u.loginHistory ++ [⟨deps.now, sd.ip, sd.location, sd.device⟩] ∧
      (u.loginHistory.length < 10 →
        u'.loginHistory =
          u.loginHistory ++ [⟨deps.now, sd.ip, sd.location, sd.device⟩]) ∧
      (u.loginHistory.length = 10 →
        u'.loginHistory =
          u.loginHistory.drop 1 ++
            [⟨deps.now, sd.ip, sd.location, sd.device⟩])) := by
  constructor
  · intro deps ip loc dev email password users u u' tk hfind hlen hlog
    obtain ⟨-, hu⟩ := login_authenticated_inv hfind hlog
    subst hu
    refine ⟨sliceLast_length_le _ _, sliceLast_suffix _ _, ?_, ?_⟩
    · intro hlt
      exact sliceLast_of_length_le _ _ (by simp; omega)
    · intro heq
      exact sliceLast_concat_of_length_eq _ _ heq
  · intro deps sessionId otp users u u' tk sd hfind hsd hlen hver
    obtain ⟨-, hu⟩ := verifyLoginOTP_verified_inv hfind hsd hver
    subst hu
    refine ⟨sliceLast_length_le _ _, sliceLast_suffix _ _, ?_, ?_⟩
    · intro hlt
      exact sliceLast_of_length_le _ _ (by simp; omega)
    · intro heq
      exact sliceLast_concat_of_length_eq _ _ heq

/-- Witness for C7 at a concrete authenticated login over a short history. -/
theorem c7_history_bounded_fifo_witness :
    staleStepUpUserAfter.loginHistory.length ≤ 10 ∧
    staleStepUpUserAfter.loginHistory <:+
      staleStepUpUser.loginHistory ++ [⟨depsX.now, "9.9.9.9", locX, devX⟩] ∧
    (staleStepUpUser.loginHistory.length < 10 →
      staleStepUpUserAfter.loginHistory =
        staleStepUpUser.loginHistory ++ [⟨depsX.now, "9.9.9.9", locX, devX⟩]) ∧
    (staleStepUpUser.loginHistory.length = 10 →
      staleStepUpUserAfter.loginHistory =
        staleStepUpUser.loginHistory.drop 1 ++
          [⟨depsX.now, "9.9.9.9", locX, devX⟩]) :=
  c7_history_bounded_fifo.1 depsX "9.9.9.9" locX devX "user@example.com"
    "secret99" [staleStepUpUser] staleStepUpUser staleStepUpUserAfter
    ⟨"u1", "user@example.com"⟩ rfl (by decide) rfl

/-! ### Claim C9 -/

/-- `getIPLocation` drops coordinates in every branch. -/
theorem getIPLocation_lat_lon_none
    (geoip : Option (String → Option GeoRecord)) (ip : String) :
    (getIPLocation geoip ip).lat = none ∧ (getIPLocation geoip ip).lon = none := by
  unfold getIPLocation
  split
  · exact ⟨rfl, rfl⟩
  · split
    · exact ⟨rfl, rfl⟩
    · split
      · exact ⟨rfl, rfl⟩
      · exact ⟨rfl, rfl⟩

/-- A geo database whose lookup always succeeds and always provides
coordinates. -/
def geoDbC9 : String → Option GeoRecord :=
  fun _ => some ⟨"US", "CA", "San Francisco", "America/Los_Angeles",
    some (37.77, -122.42)⟩

/-- A second lookup result in the same country but another region, also with
coordinates. -/
def geoDbC9b : String → Option GeoRecord :=
  fun _ => some ⟨"US", "NV", "Las Vegas", "America/Los_Angeles",
    some (36.17, -115.14)⟩

/-- Claim C9 (counterexample): the geo lookup succeeds and provides
coordinates, yet the location `getIPLocation` builds carries no `lat`/`lon`
— the database's `ll` pair is discarded — so a same-country comparison of
two such locations is decided by the region strings, not by the haversine
distance. -/
theorem c9_counterexample :
    (geoDbC9 "203.0.113.5").isSome = true ∧
    (geoDbC9 "203.0.113.5").elim false (fun g => g.ll.isSome) = true ∧
    (getIPLocation (some geoDbC9) "203.0.113.5").lat = none ∧
    (getIPLocation (some geoDbC9) "203.0.113.5").lon = none ∧
    isLocationSuspicious (getIPLocation (some geoDbC9) "203.0.113.5")
      (some (getIPLocation (some geoDbC9b) "198.51.100.7")) 500 = true :=
  ⟨rfl, rfl, rfl, rfl, rfl⟩

/-- Claim C9 (amended): the Risk Signal Extractor's location never includes
`lat`/`lon` — `getIPLocation` discards the geo database's coordinates — so
for a same-country login over extractor-produced locations with a known
prior country, the location sub-check always decides by the region-string
comparison; the haversine branch is unreachable from such inputs. -/
theorem c9_location_region_fallback
    (geoip geoip' : Option (String → Option GeoRecord)) (ip ip' : String)
    (threshold : Float)
    (hknown : (getIPLocation geoip' ip').country ≠ "unknown")
    (hsame : (getIPLocation geoip ip).country =
      (getIPLocation geoip' ip').country) :
    isLocationSuspicious (getIPLocation geoip ip)
        (some (getIPLocation geoip' ip')) threshold =
      decide ((getIPLocation geoip ip).region ≠
        (getIPLocation geoip' ip').region) := by
  simp only [isLocationSuspicious]
  rw [if_neg hknown, if_neg (by simp [hsame])]
  rw [(getIPLocation_lat_lon_none geoip ip).1]
  simp [floatTruthy]

/-- Witness for C9's amended theorem: two same-country, different-region
lookups (both with database coordinates) are compared by region and flagged
suspicious. -/
theorem c9_location_region_fallback_witness :
    isLocationSuspicious (getIPLocation (some geoDbC9) "203.0.113.6")
        (some (getIPLocation (some geoDbC9b) "198.51.100.8")) 500 =
      decide ((getIPLocation (some geoDbC9) "203.0.113.6").region ≠
        (getIPLocation (some geoDbC9b) "198.51.100.8").region) :=
  c9_location_region_fallback (some geoDbC9) (some geoDbC9b)
    "203.0.113.6" "198.51.100.8" 500 (by decide) rfl
